import Mathlib

/-!
Shallow embedding of the frame-presentation and synchronization core of the
`milot21/Vulkan` repository: the swap-chain engine (`LveSwapChain`, from
`lve_swap_chain.hpp` and its implementation file) and the frame orchestrator
(`LveRenderer`, from `lve_renderer.cpp`).  Machine integers are modelled as
`Nat`; Vulkan handles are abstract `Nat` identifiers; fallible C++ code
(`throw`, `assert`) is modelled with `Except`.
-/

/-- `VkResult` status codes, restricted to the constructors the engine
inspects; every other code is carried abstractly. -/
inductive VkResult where
  | success
  | suboptimalKHR
  | errorOutOfDateKHR
  | otherError (code : Int)
deriving Repr, DecidableEq

/-- `VkExtent2D`: a pair of `uint32_t` dimensions. -/
structure VkExtent2D where
  width : Nat
  height : Nat
deriving Repr, DecidableEq

/-- `VkSurfaceFormatKHR`: a color format together with a color space,
both `uint32_t` enumeration codes. -/
structure VkSurfaceFormatKHR where
  format : Nat
  colorSpace : Nat
deriving Repr, DecidableEq

/-- The fields of `VkSurfaceCapabilitiesKHR` that `createSwapChain` and
`chooseSwapExtent` read. -/
structure VkSurfaceCapabilitiesKHR where
  minImageCount : Nat
  maxImageCount : Nat
  currentExtent : VkExtent2D
  minImageExtent : VkExtent2D
  maxImageExtent : VkExtent2D
deriving Repr, DecidableEq

/-- `std::numeric_limits<uint32_t>::max()`. -/
def UINT32_MAX : Nat := 2 ^ 32 - 1

/-- Vulkan enumeration code of `VK_FORMAT_B8G8R8A8_SRGB`. -/
def VK_FORMAT_B8G8R8A8_SRGB : Nat := 50

/-- Vulkan enumeration code of `VK_COLOR_SPACE_SRGB_NONLINEAR_KHR`. -/
def VK_COLOR_SPACE_SRGB_NONLINEAR_KHR : Nat := 0

/-- Vulkan bit of `VK_PIPELINE_STAGE_COLOR_ATTACHMENT_OUTPUT_BIT` (0x400). -/
def VK_PIPELINE_STAGE_COLOR_ATTACHMENT_OUTPUT_BIT : Nat := 1024

/-- `LveSwapChain::MAX_FRAMES_IN_FLIGHT = 2`. -/
def MAX_FRAMES_IN_FLIGHT : Nat := 2

/-- `LveSwapChain::chooseSwapSurfaceFormat`: scan `availableFormats` in
order and return the first entry equal to
(`VK_FORMAT_B8G8R8A8_SRGB`, `VK_COLOR_SPACE_SRGB_NONLINEAR_KHR`); if none
matches, return `availableFormats[0]`.  The C++ indexes an arbitrary vector;
the empty case (undefined behaviour in C++) is modelled by `Option`. -/
def chooseSwapSurfaceFormat (availableFormats : List VkSurfaceFormatKHR) :
    Option VkSurfaceFormatKHR :=
  match availableFormats.find? (fun f =>
      f.format == VK_FORMAT_B8G8R8A8_SRGB &&
      f.colorSpace == VK_COLOR_SPACE_SRGB_NONLINEAR_KHR) with
  | some f => some f
  | none => availableFormats.head?

/-- `LveSwapChain::chooseSwapExtent`: if `capabilities.currentExtent.width`
differs from `uint32_t` max, return `currentExtent`; otherwise clamp the
window extent into `[minImageExtent, maxImageExtent]` per dimension. -/
def chooseSwapExtent (windowExtent : VkExtent2D)
    (capabilities : VkSurfaceCapabilitiesKHR) : VkExtent2D :=
  if capabilities.currentExtent.width ≠ UINT32_MAX then
    capabilities.currentExtent
  else
    { width := max capabilities.minImageExtent.width
        (min capabilities.maxImageExtent.width windowExtent.width),
      height := max capabilities.minImageExtent.height
        (min capabilities.maxImageExtent.height windowExtent.height) }

/-- The two format fields a swap chain stores
(`swapChainImageFormat`, `swapChainDepthFormat`). -/
structure SwapChainFormats where
  swapChainImageFormat : Nat
  swapChainDepthFormat : Nat
deriving Repr, DecidableEq

/-- `LveSwapChain::compareSwapFormats`: `self` is the receiver
(`this`), `other` the argument; true iff both stored formats agree. -/
def compareSwapFormats (self other : SwapChainFormats) : Bool :=
  other.swapChainDepthFormat == self.swapChainDepthFormat &&
  other.swapChainImageFormat == self.swapChainImageFormat

/-- The image-count request in `LveSwapChain::createSwapChain`:
`minImageCount + 1`, capped at `maxImageCount` when that is nonzero. -/
def requestedImageCount (caps : VkSurfaceCapabilitiesKHR) : Nat :=
  let n := caps.minImageCount + 1
  if caps.maxImageCount > 0 && decide (n > caps.maxImageCount) then
    caps.maxImageCount
  else n

example :
    chooseSwapSurfaceFormat [⟨44, 0⟩, ⟨50, 0⟩] = some ⟨50, 0⟩ := by decide

example :
    chooseSwapSurfaceFormat [⟨44, 0⟩, ⟨37, 5⟩] = some ⟨44, 0⟩ := by decide

example :
    chooseSwapExtent ⟨800, 600⟩
      ⟨2, 3, ⟨1024, 768⟩, ⟨1, 1⟩, ⟨4096, 4096⟩⟩ = ⟨1024, 768⟩ := by decide

example :
    chooseSwapExtent ⟨9000, 600⟩
      ⟨2, 3, ⟨UINT32_MAX, 0⟩, ⟨1, 1⟩, ⟨4096, 4096⟩⟩ = ⟨4096, 600⟩ := by
  decide

example : requestedImageCount ⟨2, 3, ⟨0, 0⟩, ⟨0, 0⟩, ⟨0, 0⟩⟩ = 3 := by decide

example : requestedImageCount ⟨3, 3, ⟨0, 0⟩, ⟨0, 0⟩, ⟨0, 0⟩⟩ = 3 := by decide

example : requestedImageCount ⟨2, 0, ⟨0, 0⟩, ⟨0, 0⟩, ⟨0, 0⟩⟩ = 3 := by decide

/-- The state of a constructed `LveSwapChain`: the per-image resource
arrays, the stored formats and extent, the per-slot synchronization
objects, and the back-reference to a previous swap chain.  Vulkan handles
are abstract `Nat` identifiers. -/
structure LveSwapChain where
  swapChainImageFormat : Nat
  swapChainDepthFormat : Nat
  swapChainExtent : VkExtent2D
  swapChainImages : List Nat
  swapChainImageViews : List Nat
  depthImages : List Nat
  depthImageMemorys : List Nat
  depthImageViews : List Nat
  swapChainFramebuffers : List Nat
  imageAvailableSemaphores : List Nat
  renderFinishedSemaphores : List Nat
  inFlightFences : List Nat
  imagesInFlight : List (Option Nat)
  oldSwapChain : Option Nat
  currentFrame : Nat
deriving Repr, DecidableEq

/-- `LveSwapChain::imageCount()`: `swapChainImages.size()`. -/
def LveSwapChain.imageCount (sc : LveSwapChain) : Nat :=
  sc.swapChainImages.length

/-- `SwapChainSupportDetails` as returned by the device query. -/
structure SwapChainSupportDetails where
  capabilities : VkSurfaceCapabilitiesKHR
  formats : List VkSurfaceFormatKHR
  presentModes : List Nat

/-- The device-side responses the swap-chain constructor consumes:
the surface-support query, the count of images the driver actually
creates for a requested minimum (`vkGetSwapchainImagesKHR`), and the
depth format chosen by `findDepthFormat` via `findSupportedFormat`. -/
structure DeviceEnv where
  support : SwapChainSupportDetails
  actualImageCount : Nat → Nat
  depthFormat : Nat

/-- `LveSwapChain::init()`: `createSwapChain`, `createImageViews`,
`createRenderPass`, `createDepthResources`, `createFramebuffers`,
`createSyncObjects`, with the member `oldSwapChain` holding `old`
throughout (it supplies `createInfo.oldSwapchain`).  Construction fails
(`none`) when the format list is empty, where the C++ indexing is
undefined.  Each `resize` in the source is mirrored by a list of exactly
that length. -/
def LveSwapChain.runInit (device : DeviceEnv) (windowExtent : VkExtent2D)
    (old : Option Nat) : Option LveSwapChain :=
  match chooseSwapSurfaceFormat device.support.formats with
  | none => none
  | some surfaceFormat =>
    let extent := chooseSwapExtent windowExtent device.support.capabilities
    let requested := requestedImageCount device.support.capabilities
    let n := device.actualImageCount requested
    some
      { swapChainImageFormat := surfaceFormat.format,
        swapChainDepthFormat := device.depthFormat,
        swapChainExtent := extent,
        swapChainImages := List.range n,
        swapChainImageViews := List.range n,
        depthImages := List.range n,
        depthImageMemorys := List.range n,
        depthImageViews := List.range n,
        swapChainFramebuffers := List.range n,
        imageAvailableSemaphores := List.range MAX_FRAMES_IN_FLIGHT,
        renderFinishedSemaphores := List.range MAX_FRAMES_IN_FLIGHT,
        inFlightFences := List.range MAX_FRAMES_IN_FLIGHT,
        imagesInFlight := List.replicate n none,
        oldSwapChain := old,
        currentFrame := 0 }

/-- The two-argument constructor
`LveSwapChain(LveDevice&, VkExtent2D)`: runs `init` with no previous
swap chain. -/
def mkLveSwapChain (device : DeviceEnv) (windowExtent : VkExtent2D) :
    Option LveSwapChain :=
  LveSwapChain.runInit device windowExtent none

/-- The recreation constructor
`LveSwapChain(LveDevice&, VkExtent2D, std::shared_ptr<LveSwapChain>)`:
the member `oldSwapChain` holds `previous` during `init()`, then is
assigned `nullptr`. -/
def mkLveSwapChainWithPrevious (device : DeviceEnv)
    (windowExtent : VkExtent2D) (previous : Option Nat) :
    Option LveSwapChain :=
  (LveSwapChain.runInit device windowExtent previous).map
    (fun sc => { sc with oldSwapChain := none })

/-- The externally visible steps `LveSwapChain::submitCommandBuffers`
performs, in source order: the optional wait on the fence previously
recorded for the target image, recording the current slot fence as the
image owner, `vkResetFences` on the slot fence, `vkQueueSubmit` with its
wait semaphore / wait stage / command buffer / signal semaphore / fence,
and `vkQueuePresentKHR` with its wait semaphore and image index. -/
inductive SubmitEffect where
  | waitImageFence (fence : Nat)
  | markImageInFlight (img : Nat) (fence : Nat)
  | resetFence (fence : Nat)
  | queueSubmit (waitSem : Nat) (waitStage : Nat) (buffer : Nat)
      (signalSem : Nat) (fence : Nat)
  | presentKHR (waitSem : Nat) (img : Nat)
deriving Repr, DecidableEq

/-- `LveSwapChain::submitCommandBuffers`: wait on
`imagesInFlight[*imageIndex]` when non-null, record the current slot
fence there, reset that fence, submit to the graphics queue (waiting on
the slot's image-available semaphore at the color-attachment-output
stage, signaling the slot's render-finished semaphore, fenced by the
slot fence), present waiting on the render-finished semaphore, advance
`currentFrame` modulo `MAX_FRAMES_IN_FLIGHT`, and return the present
status.  The queue-submit and present outcomes are environment inputs;
a failed `vkQueueSubmit` throws.  The performed steps are returned as an
ordered effect list. -/
def LveSwapChain.submitCommandBuffers (sc : LveSwapChain) (buffer : Nat)
    (imageIndex : Nat) (submitResult presentResult : VkResult) :
    Except String (LveSwapChain × VkResult × List SubmitEffect) :=
  let slotFence := sc.inFlightFences.getD sc.currentFrame 0
  let waitEffects : List SubmitEffect :=
    match sc.imagesInFlight.getD imageIndex none with
    | some f => [SubmitEffect.waitImageFence f]
    | none => []
  let sc1 :=
    { sc with imagesInFlight :=
        sc.imagesInFlight.set imageIndex (some slotFence) }
  let waitSem := sc.imageAvailableSemaphores.getD sc.currentFrame 0
  let signalSem := sc.renderFinishedSemaphores.getD sc.currentFrame 0
  if submitResult ≠ VkResult.success then
    Except.error "failed to submit draw command buffer!"
  else
    Except.ok
      ({ sc1 with currentFrame :=
            (sc1.currentFrame + 1) % MAX_FRAMES_IN_FLIGHT },
       presentResult,
       waitEffects ++
         [SubmitEffect.markImageInFlight imageIndex slotFence,
          SubmitEffect.resetFence slotFence,
          SubmitEffect.queueSubmit waitSem
            VK_PIPELINE_STAGE_COLOR_ATTACHMENT_OUTPUT_BIT buffer
            signalSem slotFence,
          SubmitEffect.presentKHR signalSem imageIndex])

/-- CPU/GPU synchronization world: the swap-chain state together with
the signaled/unsignaled status of each fence handle ('index into
`signaled`). -/
structure SyncWorld where
  sc : LveSwapChain
  signaled : List Bool
deriving Repr, DecidableEq

/-- Observation logged at the instant `submitCommandBuffers` records a
new owner fence for an image: which image, which fence was previously
recorded (if any) and whether that fence was signaled at that instant,
which fence became the owner, and which slot was current. -/
structure MarkInfo where
  image : Nat
  prevFence : Option Nat
  prevFenceSignaled : Bool
  newFence : Nat
  slot : Nat
deriving Repr, DecidableEq

/-- Events of the single-producer frame loop interleaved with GPU
completions: the GPU signals a fence, or the CPU runs one
`acquireNextImage` / `submitCommandBuffers` pair on a given image
index (results all `VK_SUCCESS`). -/
inductive SyncEvent where
  | gpuComplete (fence : Nat)
  | frame (imageIndex : Nat)
deriving Repr, DecidableEq

/-- The state change of one completed acquire/submit pair: apply
`submitCommandBuffers` (success results), un-signal the slot fence that
`vkResetFences` reset, and log the mark observation from the
pre-state. -/
def SyncWorld.completeFrame (w : SyncWorld) (img : Nat) :
    SyncWorld × MarkInfo :=
  let slot := w.sc.currentFrame
  let slotFence := w.sc.inFlightFences.getD slot 0
  let prev := w.sc.imagesInFlight.getD img none
  let sc2 :=
    match w.sc.submitCommandBuffers 0 img VkResult.success
        VkResult.success with
    | Except.ok (sc2, _, _) => sc2
    | Except.error _ => w.sc
  ({ sc := sc2, signaled := w.signaled.set slotFence false },
   { image := img,
     prevFence := prev,
     prevFenceSignaled :=
       match prev with
       | some f => w.signaled.getD f false
       | none => true,
     newFence := slotFence,
     slot := slot })

/-- One acquire/submit pair under blocking-wait semantics:
`acquireNextImage` waits (infinite timeout) on the current slot fence,
and `submitCommandBuffers` waits on the fence recorded in
`imagesInFlight` for the target image; a wait whose fence never signals
in this schedule blocks forever, yielding `none` (no submission
happens). -/
def SyncWorld.frameStep (w : SyncWorld) (img : Nat) :
    Option (SyncWorld × MarkInfo) :=
  let slotFence := w.sc.inFlightFences.getD w.sc.currentFrame 0
  if w.signaled.getD slotFence false = false then none
  else
    match w.sc.imagesInFlight.getD img none with
    | some f =>
      if w.signaled.getD f false = false then none
      else some (w.completeFrame img)
    | none => some (w.completeFrame img)

/-- One event: a GPU completion signals a fence; a frame event runs
`frameStep`. -/
def SyncWorld.step (w : SyncWorld) :
    SyncEvent → Option (SyncWorld × List MarkInfo)
  | SyncEvent.gpuComplete f =>
      some ({ w with signaled := w.signaled.set f true }, [])
  | SyncEvent.frame img => (w.frameStep img).map (fun p => (p.1, [p.2]))

/-- Run a schedule of events, accumulating the mark log. -/
def SyncWorld.run (w : SyncWorld) :
    List SyncEvent → Option (SyncWorld × List MarkInfo)
  | [] => some (w, [])
  | e :: es =>
    match w.step e with
    | none => none
    | some (w1, ms) =>
      match w1.run es with
      | none => none
      | some (w2, rest) => some (w2, ms ++ rest)

/-- The world right after `createSyncObjects`: every slot fence was
created with `VK_FENCE_CREATE_SIGNALED_BIT`, so all fences start
signaled. -/
def initialSyncWorld (sc : LveSwapChain) : SyncWorld :=
  { sc := sc, signaled := List.replicate sc.inFlightFences.length true }

/-- Faults of `LveRenderer`: a failed `assert(...)` or a thrown
`std::runtime_error`. -/
inductive RendererFault where
  | assertionFailure (msg : String)
  | runtimeError (msg : String)
deriving Repr, DecidableEq

/-- True exactly when a renderer operation faulted on an `assert`. -/
def assertionFault {α : Type} (e : Except RendererFault α) : Bool :=
  match e with
  | Except.error (RendererFault.assertionFailure _) => true
  | _ => false

/-- The state of `LveRenderer` (`lve_renderer.cpp`): the owned swap
chain, the per-slot command buffers, and the frame-session fields.
The C++ declares `currentImageIndex`, `currentFrameIndex` and
`isFrameStarted` without initializers; the model takes the intended
zero/false start (the values the begin/end protocol relies on). -/
structure LveRenderer where
  lveSwapChain : LveSwapChain
  commandBuffers : List Nat
  currentImageIndex : Nat
  currentFrameIndex : Nat
  isFrameStarted : Bool
deriving Repr, DecidableEq

/-- `LveRenderer::getCurrentCommandBuffer`: asserts `isFrameStarted`,
then returns `commandBuffers[currentFrameIndex]`. -/
def LveRenderer.getCurrentCommandBuffer (r : LveRenderer) :
    Except RendererFault Nat :=
  if r.isFrameStarted then
    Except.ok (r.commandBuffers.getD r.currentFrameIndex 0)
  else
    Except.error (RendererFault.assertionFailure
      "Cannot get command buffer when frame not in progress")

/-- `LveRenderer::getFrameIndex`: asserts `isFrameStarted`, then returns
`currentFrameIndex`. -/
def LveRenderer.getFrameIndex (r : LveRenderer) :
    Except RendererFault Nat :=
  if r.isFrameStarted then
    Except.ok r.currentFrameIndex
  else
    Except.error (RendererFault.assertionFailure
      "Cannot get frame index when frame not in progress")

/-- `LveRenderer::recreateSwapChain`: after waiting out a zero extent
and idling the device, move the old chain aside, construct a new
`LveSwapChain` passing the old one as the reuse hint, and throw
"format has changed" when `compareSwapFormats` on the old chain
rejects the new one.  `extent` is the first nonzero extent the window
reports; device responses come from `device`. -/
def LveRenderer.recreateSwapChain (r : LveRenderer) (device : DeviceEnv)
    (extent : VkExtent2D) : Except RendererFault LveRenderer :=
  match mkLveSwapChainWithPrevious device extent (some 0) with
  | none =>
      Except.error (RendererFault.runtimeError "failed to create swap chain!")
  | some newChain =>
    if compareSwapFormats
        ⟨r.lveSwapChain.swapChainImageFormat,
         r.lveSwapChain.swapChainDepthFormat⟩
        ⟨newChain.swapChainImageFormat, newChain.swapChainDepthFormat⟩ then
      Except.ok { r with lveSwapChain := newChain }
    else
      Except.error (RendererFault.runtimeError
        "Swap chain image(or depth) format has changed!")

/-- Per-frame environment inputs: the results the Vulkan calls report,
the acquired image index, the window resize flag, and the device
responses consumed if reconstruction runs. -/
structure FrameEnv where
  acquireResult : VkResult
  acquiredImageIndex : Nat
  submitResult : VkResult
  presentResult : VkResult
  windowResized : Bool
  device : DeviceEnv
  windowExtent : VkExtent2D

/-- `LveRenderer::beginFrame`: assert no frame is open; acquire the
next image; on `VK_ERROR_OUT_OF_DATE_KHR` recreate the swap chain and
return no command buffer; on a hard failure throw; otherwise open the
frame and begin recording the current slot's command buffer, returning
it. -/
def LveRenderer.beginFrame (r : LveRenderer) (env : FrameEnv) :
    Except RendererFault (LveRenderer × Option Nat) :=
  if r.isFrameStarted then
    Except.error (RendererFault.assertionFailure
      "Cant call beginFrame while already in progress")
  else
    if env.acquireResult = VkResult.errorOutOfDateKHR then
      (r.recreateSwapChain env.device env.windowExtent).map
        (fun r2 => (r2, none))
    else if env.acquireResult ≠ VkResult.success ∧
        env.acquireResult ≠ VkResult.suboptimalKHR then
      Except.error (RendererFault.runtimeError
        "failed to acquire swap chain image!")
    else
      let r2 := { r with currentImageIndex := env.acquiredImageIndex,
                         isFrameStarted := true }
      match r2.getCurrentCommandBuffer with
      | Except.error e => Except.error e
      | Except.ok cb => Except.ok (r2, some cb)

/-- `LveRenderer::endFrame`: assert a frame is open; end recording;
submit and present through the swap chain; on out-of-date, suboptimal
or a window resize, recreate the swap chain (clearing the resize
flag); on any other non-success present status throw; finally close
the frame and advance `currentFrameIndex` modulo
`MAX_FRAMES_IN_FLIGHT`. -/
def LveRenderer.endFrame (r : LveRenderer) (env : FrameEnv) :
    Except RendererFault LveRenderer :=
  if ¬ r.isFrameStarted then
    Except.error (RendererFault.assertionFailure
      "Cant call endFrame while frame is not in progress")
  else
    match r.getCurrentCommandBuffer with
    | Except.error e => Except.error e
    | Except.ok cb =>
      match r.lveSwapChain.submitCommandBuffers cb r.currentImageIndex
          env.submitResult env.presentResult with
      | Except.error msg => Except.error (RendererFault.runtimeError msg)
      | Except.ok (sc2, result, _) =>
        let r1 := { r with lveSwapChain := sc2 }
        let afterRecreate : Except RendererFault LveRenderer :=
          if result = VkResult.errorOutOfDateKHR ∨
              result = VkResult.suboptimalKHR ∨ env.windowResized then
            r1.recreateSwapChain env.device env.windowExtent
          else if result ≠ VkResult.success then
            Except.error (RendererFault.runtimeError
              "failed to present swap chain image!")
          else Except.ok r1
        afterRecreate.map (fun r2 =>
          { r2 with isFrameStarted := false,
                    currentFrameIndex :=
                      (r2.currentFrameIndex + 1) % MAX_FRAMES_IN_FLIGHT })

/-- `LveRenderer::beginSwapChainRenderPass`: asserts a frame is open
and that `commandBuffer` is the current slot's command buffer, then
begins the render pass (no renderer-state change). -/
def LveRenderer.beginSwapChainRenderPass (r : LveRenderer)
    (commandBuffer : Nat) : Except RendererFault Unit :=
  if ¬ r.isFrameStarted then
    Except.error (RendererFault.assertionFailure
      "Cant call beginSwapChainRenderPass if frame is not in progress")
  else
    match r.getCurrentCommandBuffer with
    | Except.error e => Except.error e
    | Except.ok cb =>
      if commandBuffer ≠ cb then
        Except.error (RendererFault.assertionFailure
          "Cant begin render pass on command buffer from a different frame")
      else Except.ok ()

/-- `LveRenderer::endSwapChainRenderPass`: asserts a frame is open and
that `commandBuffer` is the current slot's command buffer, then ends
the render pass. -/
def LveRenderer.endSwapChainRenderPass (r : LveRenderer)
    (commandBuffer : Nat) : Except RendererFault Unit :=
  if ¬ r.isFrameStarted then
    Except.error (RendererFault.assertionFailure
      "Cant call endSwapChainRenderPass if frame is not in progress")
  else
    match r.getCurrentCommandBuffer with
    | Except.error e => Except.error e
    | Except.ok cb =>
      if commandBuffer ≠ cb then
        Except.error (RendererFault.assertionFailure
          "Cant end render pass on command buffer from a different frame")
      else Except.ok ()

/-- The `LveRenderer` constructor: `recreateSwapChain()` (first-time
branch, no format comparison) then `createCommandBuffers()`, which
allocates `MAX_FRAMES_IN_FLIGHT` command buffers. -/
def mkLveRenderer (device : DeviceEnv) (extent : VkExtent2D) :
    Option LveRenderer :=
  (mkLveSwapChain device extent).map (fun sc =>
    { lveSwapChain := sc,
      commandBuffers := List.range MAX_FRAMES_IN_FLIGHT,
      currentImageIndex := 0,
      currentFrameIndex := 0,
      isFrameStarted := false })

/-- A frame environment in which every Vulkan call succeeds and no
resize is pending. -/
def normalEnv (device : DeviceEnv) (extent : VkExtent2D) (img : Nat) :
    FrameEnv :=
  { acquireResult := VkResult.success,
    acquiredImageIndex := img,
    submitResult := VkResult.success,
    presentResult := VkResult.success,
    windowResized := false,
    device := device,
    windowExtent := extent }

/-- Run one completed begin-frame/end-frame pair per listed image
index, all calls succeeding. -/
def runFrames (device : DeviceEnv) (extent : VkExtent2D)
    (r : LveRenderer) : List Nat → Except RendererFault LveRenderer
  | [] => Except.ok r
  | img :: imgs =>
    match r.beginFrame (normalEnv device extent img) with
    | Except.error e => Except.error e
    | Except.ok (r1, _) =>
      match r1.endFrame (normalEnv device extent img) with
      | Except.error e => Except.error e
      | Except.ok r2 => runFrames device extent r2 imgs

/-- A concrete device environment: surface reports a fixed current
extent, minImageCount 2 and maxImageCount 3 (so three images are
created: N = 3 with K = 2 slots), one sRGB surface format, and a
32-bit float depth format. -/
def demoDevice : DeviceEnv :=
  { support :=
      { capabilities :=
          { minImageCount := 2, maxImageCount := 3,
            currentExtent := ⟨800, 600⟩,
            minImageExtent := ⟨1, 1⟩,
            maxImageExtent := ⟨4096, 4096⟩ },
        formats := [⟨VK_FORMAT_B8G8R8A8_SRGB,
                     VK_COLOR_SPACE_SRGB_NONLINEAR_KHR⟩],
        presentModes := [2] },
    actualImageCount := fun n => n,
    depthFormat := 126 }

/-- The swap chain `demoDevice` constructs for an 800x600 window. -/
def demoChain : LveSwapChain :=
  { swapChainImageFormat := VK_FORMAT_B8G8R8A8_SRGB,
    swapChainDepthFormat := 126,
    swapChainExtent := ⟨800, 600⟩,
    swapChainImages := [0, 1, 2],
    swapChainImageViews := [0, 1, 2],
    depthImages := [0, 1, 2],
    depthImageMemorys := [0, 1, 2],
    depthImageViews := [0, 1, 2],
    swapChainFramebuffers := [0, 1, 2],
    imageAvailableSemaphores := [0, 1],
    renderFinishedSemaphores := [0, 1],
    inFlightFences := [0, 1],
    imagesInFlight := [none, none, none],
    oldSwapChain := none,
    currentFrame := 0 }

/-- A schedule over N = 3 images and K = 2 slots in which image 0 is
reused by slot 1 after its first owner fence (fence 0) has been
signaled by the GPU. -/
def demoEvents : List SyncEvent :=
  [SyncEvent.frame 0, SyncEvent.frame 1, SyncEvent.gpuComplete 0,
   SyncEvent.frame 2, SyncEvent.gpuComplete 1, SyncEvent.gpuComplete 0,
   SyncEvent.frame 0]

/-- The world and mark log `demoEvents` produces from the initial
world of `demoChain`. -/
def demoFinalWorld : SyncWorld :=
  { sc :=
      { swapChainImageFormat := 50,
        swapChainDepthFormat := 126,
        swapChainExtent := ⟨800, 600⟩,
        swapChainImages := [0, 1, 2],
        swapChainImageViews := [0, 1, 2],
        depthImages := [0, 1, 2],
        depthImageMemorys := [0, 1, 2],
        depthImageViews := [0, 1, 2],
        swapChainFramebuffers := [0, 1, 2],
        imageAvailableSemaphores := [0, 1],
        renderFinishedSemaphores := [0, 1],
        inFlightFences := [0, 1],
        imagesInFlight := [some 1, some 1, some 0],
        oldSwapChain := none,
        currentFrame := 0 },
    signaled := [true, false] }

/-- The mark log of `demoEvents`: image 0 is granted to slot 1 at the
last frame, after its previously recorded fence 0 was signaled. -/
def demoLog : List MarkInfo :=
  [{ image := 0, prevFence := none, prevFenceSignaled := true,
     newFence := 0, slot := 0 },
   { image := 1, prevFence := none, prevFenceSignaled := true,
     newFence := 1, slot := 1 },
   { image := 2, prevFence := none, prevFenceSignaled := true,
     newFence := 0, slot := 0 },
   { image := 0, prevFence := some 0, prevFenceSignaled := true,
     newFence := 1, slot := 1 }]

/-- The renderer `demoDevice` constructs for an 800x600 window. -/
def demoRenderer : LveRenderer :=
  { lveSwapChain := demoChain,
    commandBuffers := [0, 1],
    currentImageIndex := 0,
    currentFrameIndex := 0,
    isFrameStarted := false }

/-- The renderer state after three completed all-success frames on
images 0, 1, 2 starting from `demoRenderer`. -/
def demoRenderer3 : LveRenderer :=
  { lveSwapChain :=
      { demoChain with
          imagesInFlight := [some 0, some 1, some 0],
          currentFrame := 1 },
    commandBuffers := [0, 1],
    currentImageIndex := 2,
    currentFrameIndex := 1,
    isFrameStarted := false }

/-- C7: for a non-empty format list, `chooseSwapSurfaceFormat` returns
an offered entry with format `VK_FORMAT_B8G8R8A8_SRGB` and color space
`VK_COLOR_SPACE_SRGB_NONLINEAR_KHR` when one is offered, and otherwise
returns the first offered format. -/
theorem chooseSwapSurfaceFormat_prefers_srgb_else_first
    (l : List VkSurfaceFormatKHR) (hne : l ≠ []) :
    ((∃ e ∈ l, e.format = VK_FORMAT_B8G8R8A8_SRGB ∧
        e.colorSpace = VK_COLOR_SPACE_SRGB_NONLINEAR_KHR) →
      ∃ e, chooseSwapSurfaceFormat l = some e ∧ e ∈ l ∧
        e.format = VK_FORMAT_B8G8R8A8_SRGB ∧
        e.colorSpace = VK_COLOR_SPACE_SRGB_NONLINEAR_KHR) ∧
    ((∀ e ∈ l, e.format ≠ VK_FORMAT_B8G8R8A8_SRGB ∨
        e.colorSpace ≠ VK_COLOR_SPACE_SRGB_NONLINEAR_KHR) →
      chooseSwapSurfaceFormat l = l.head? ∧ ∃ e, l.head? = some e) := by
  unfold chooseSwapSurfaceFormat
  cases hfind : l.find? (fun f =>
      f.format == VK_FORMAT_B8G8R8A8_SRGB &&
      f.colorSpace == VK_COLOR_SPACE_SRGB_NONLINEAR_KHR) with
  | none =>
    constructor
    · rintro ⟨e, he, h1, h2⟩
      have hno := List.find?_eq_none.mp hfind e he
      simp [h1, h2] at hno
    · intro _
      refine ⟨rfl, ?_⟩
      cases l with
      | nil => exact absurd rfl hne
      | cons a t => exact ⟨a, rfl⟩
  | some a =>
    have hp := List.find?_some hfind
    have hmem := List.mem_of_find?_eq_some hfind
    simp only [Bool.and_eq_true, beq_iff_eq] at hp
    constructor
    · intro _
      exact ⟨a, rfl, hmem, hp.1, hp.2⟩
    · intro hall
      rcases hall a hmem with h | h
      · exact absurd hp.1 h
      · exact absurd hp.2 h

/-- Witness for C7: with the preferred sRGB entry offered second it is
selected; with two formats offered and the preferred one absent, the
first offered format is selected. -/
theorem chooseSwapSurfaceFormat_prefers_srgb_else_first_witness :
    chooseSwapSurfaceFormat [⟨44, 0⟩, ⟨50, 0⟩] = some ⟨50, 0⟩ ∧
    chooseSwapSurfaceFormat [⟨44, 0⟩, ⟨37, 5⟩] = some ⟨44, 0⟩ := by
  constructor
  · rcases (chooseSwapSurfaceFormat_prefers_srgb_else_first
        [⟨44, 0⟩, ⟨50, 0⟩] (by decide)).1
        ⟨⟨50, 0⟩, by decide, rfl, rfl⟩ with ⟨e, heq, hmem, hf, hc⟩
    rw [heq]
    simp only [List.mem_cons, List.not_mem_nil, or_false] at hmem
    rcases hmem with h | h
    · rw [h] at hf
      exact absurd hf (by decide)
    · rw [h]
  · have h := (chooseSwapSurfaceFormat_prefers_srgb_else_first
      [⟨44, 0⟩, ⟨37, 5⟩] (by decide)).2 (by decide)
    exact h.1

/-- C6: `chooseSwapExtent` returns the surface current extent whenever
its width is not the `uint32_t`-max sentinel, and otherwise returns the
window extent with each dimension clamped into the surface min/max
image-extent bounds. -/
theorem chooseSwapExtent_current_or_clamped (windowExtent : VkExtent2D)
    (caps : VkSurfaceCapabilitiesKHR) :
    (caps.currentExtent.width ≠ UINT32_MAX →
      chooseSwapExtent windowExtent caps = caps.currentExtent) ∧
    (caps.currentExtent.width = UINT32_MAX →
      chooseSwapExtent windowExtent caps =
        ⟨max caps.minImageExtent.width
            (min caps.maxImageExtent.width windowExtent.width),
         max caps.minImageExtent.height
            (min caps.maxImageExtent.height windowExtent.height)⟩ ∧
      (caps.minImageExtent.width ≤ caps.maxImageExtent.width →
        caps.minImageExtent.width ≤
            (chooseSwapExtent windowExtent caps).width ∧
          (chooseSwapExtent windowExtent caps).width ≤
            caps.maxImageExtent.width) ∧
      (caps.minImageExtent.height ≤ caps.maxImageExtent.height →
        caps.minImageExtent.height ≤
            (chooseSwapExtent windowExtent caps).height ∧
          (chooseSwapExtent windowExtent caps).height ≤
            caps.maxImageExtent.height)) := by
  refine ⟨fun h => by simp [chooseSwapExtent, h], fun h => ?_⟩
  have hceq : chooseSwapExtent windowExtent caps =
      ⟨max caps.minImageExtent.width
          (min caps.maxImageExtent.width windowExtent.width),
       max caps.minImageExtent.height
          (min caps.maxImageExtent.height windowExtent.height)⟩ := by
    simp [chooseSwapExtent, h]
  refine ⟨hceq, fun hwb => ?_, fun hhb => ?_⟩
  · rw [hceq]
    exact ⟨le_max_left _ _, max_le hwb (min_le_left _ _)⟩
  · rw [hceq]
    exact ⟨le_max_left _ _, max_le hhb (min_le_left _ _)⟩

/-- Witness for C6: a well-defined current extent is returned as is; a
sentinel current extent yields the clamped window extent. -/
theorem chooseSwapExtent_current_or_clamped_witness :
    chooseSwapExtent ⟨800, 600⟩
        ⟨2, 3, ⟨1024, 768⟩, ⟨1, 1⟩, ⟨4096, 4096⟩⟩ = ⟨1024, 768⟩ ∧
    chooseSwapExtent ⟨9000, 600⟩
        ⟨2, 3, ⟨UINT32_MAX, UINT32_MAX⟩, ⟨1, 1⟩, ⟨4096, 4096⟩⟩ =
      ⟨4096, 600⟩ := by
  constructor
  · exact (chooseSwapExtent_current_or_clamped ⟨800, 600⟩
      ⟨2, 3, ⟨1024, 768⟩, ⟨1, 1⟩, ⟨4096, 4096⟩⟩).1 (by decide)
  · exact ((chooseSwapExtent_current_or_clamped ⟨9000, 600⟩
      ⟨2, 3, ⟨UINT32_MAX, UINT32_MAX⟩, ⟨1, 1⟩, ⟨4096, 4096⟩⟩).2 rfl).1.trans
      (by decide)

/-- C5: during swap-chain reconstruction the fatal "format changed"
error is raised if and only if the newly constructed chain differs from
the old one in color format or depth format. -/
theorem recreate_raises_format_changed_iff (r : LveRenderer)
    (device : DeviceEnv) (extent : VkExtent2D) (newChain : LveSwapChain)
    (hnew : mkLveSwapChainWithPrevious device extent (some 0) =
      some newChain) :
    (r.recreateSwapChain device extent =
        Except.error (RendererFault.runtimeError
          "Swap chain image(or depth) format has changed!")) ↔
      (newChain.swapChainImageFormat ≠
          r.lveSwapChain.swapChainImageFormat ∨
       newChain.swapChainDepthFormat ≠
          r.lveSwapChain.swapChainDepthFormat) := by
  unfold LveRenderer.recreateSwapChain
  rw [hnew]
  by_cases hd : newChain.swapChainDepthFormat =
      r.lveSwapChain.swapChainDepthFormat
  · by_cases hi : newChain.swapChainImageFormat =
        r.lveSwapChain.swapChainImageFormat
    · simp [compareSwapFormats, hd, hi]
    · simp [compareSwapFormats, hd, hi]
  · simp [compareSwapFormats, hd]

/-- Witness for C5: recreating over a chain whose stored color format
differs raises the fatal error; recreating with identical formats does
not. -/
theorem recreate_raises_format_changed_iff_witness :
    ({ demoRenderer with lveSwapChain :=
        { demoChain with swapChainImageFormat := 44 } }.recreateSwapChain
      demoDevice ⟨800, 600⟩ =
      Except.error (RendererFault.runtimeError
        "Swap chain image(or depth) format has changed!")) ∧
    ¬ (demoRenderer.recreateSwapChain demoDevice ⟨800, 600⟩ =
      Except.error (RendererFault.runtimeError
        "Swap chain image(or depth) format has changed!")) :=
  ⟨(recreate_raises_format_changed_iff _ demoDevice ⟨800, 600⟩ demoChain
      (by decide)).mpr (Or.inl (by decide)),
   fun h => by
    rcases (recreate_raises_format_changed_iff demoRenderer demoDevice
        ⟨800, 600⟩ demoChain (by decide)).mp h with hc | hc <;>
      exact hc (by decide)⟩

/-- C8: each out-of-order protocol call is an assertion failure, never
a silent no-op: begin-frame while a frame is open; end-frame while no
frame is open; render-pass begin/end while no frame is open or on a
command buffer other than the current slot command buffer. -/
theorem out_of_order_calls_assert (r : LveRenderer) (env : FrameEnv)
    (cb : Nat) :
    (r.isFrameStarted = true →
      assertionFault (r.beginFrame env) = true) ∧
    (r.isFrameStarted = false →
      assertionFault (r.endFrame env) = true) ∧
    (r.isFrameStarted = false →
      assertionFault (r.beginSwapChainRenderPass cb) = true ∧
      assertionFault (r.endSwapChainRenderPass cb) = true) ∧
    (r.isFrameStarted = true →
      cb ≠ r.commandBuffers.getD r.currentFrameIndex 0 →
      assertionFault (r.beginSwapChainRenderPass cb) = true ∧
      assertionFault (r.endSwapChainRenderPass cb) = true) := by
  refine ⟨fun h => ?_, fun h => ?_, fun h => ⟨?_, ?_⟩, fun h hcb => ⟨?_, ?_⟩⟩
  · simp [LveRenderer.beginFrame, assertionFault, h]
  · simp [LveRenderer.endFrame, assertionFault, h]
  · simp [LveRenderer.beginSwapChainRenderPass, assertionFault, h]
  · simp [LveRenderer.endSwapChainRenderPass, assertionFault, h]
  · have hcb2 : ¬ cb = r.commandBuffers[r.currentFrameIndex]?.getD 0 := by
      simpa [List.getD] using hcb
    simp [LveRenderer.beginSwapChainRenderPass, assertionFault, h,
      LveRenderer.getCurrentCommandBuffer, hcb2]
  · have hcb2 : ¬ cb = r.commandBuffers[r.currentFrameIndex]?.getD 0 := by
      simpa [List.getD] using hcb
    simp [LveRenderer.endSwapChainRenderPass, assertionFault, h,
      LveRenderer.getCurrentCommandBuffer, hcb2]

/-- Witness for C8: concrete out-of-order calls on the demo renderer
all fault on an assertion. -/
theorem out_of_order_calls_assert_witness :
    assertionFault ({ demoRenderer with isFrameStarted := true }.beginFrame
      (normalEnv demoDevice ⟨800, 600⟩ 0)) = true ∧
    assertionFault (demoRenderer.endFrame
      (normalEnv demoDevice ⟨800, 600⟩ 0)) = true ∧
    assertionFault (demoRenderer.beginSwapChainRenderPass 0) = true ∧
    assertionFault ({ demoRenderer with
      isFrameStarted := true }.beginSwapChainRenderPass 5) = true :=
  ⟨(out_of_order_calls_assert _ _ 0).1 rfl,
   (out_of_order_calls_assert _ _ 0).2.1 rfl,
   ((out_of_order_calls_assert _ (normalEnv demoDevice ⟨800, 600⟩ 0)
      0).2.2.1 rfl).1,
   ((out_of_order_calls_assert _ (normalEnv demoDevice ⟨800, 600⟩ 0)
      5).2.2.2 rfl (by decide)).1⟩

/-- C10: `getCurrentCommandBuffer` and `getFrameIndex` assert that a
frame is open; with an open frame they return the command buffer at the
current frame-slot index, respectively that index. -/
theorem accessors_require_open_frame (r : LveRenderer) :
    (r.isFrameStarted = false →
      assertionFault r.getCurrentCommandBuffer = true ∧
      assertionFault r.getFrameIndex = true) ∧
    (r.isFrameStarted = true →
      r.getFrameIndex = Except.ok r.currentFrameIndex ∧
      ∀ h : r.currentFrameIndex < r.commandBuffers.length,
        r.getCurrentCommandBuffer =
          Except.ok (r.commandBuffers.get ⟨r.currentFrameIndex, h⟩)) := by
  constructor
  · intro h
    constructor
    · simp [LveRenderer.getCurrentCommandBuffer, assertionFault, h]
    · simp [LveRenderer.getFrameIndex, assertionFault, h]
  · intro h
    refine ⟨by simp [LveRenderer.getFrameIndex, h], fun hlt => ?_⟩
    simp [LveRenderer.getCurrentCommandBuffer, h, List.getD,
      List.getElem?_eq_getElem hlt]

/-- Witness for C10: on the demo renderer the closed-frame calls fault
and the open-frame calls return slot 0 data. -/
theorem accessors_require_open_frame_witness :
    assertionFault demoRenderer.getCurrentCommandBuffer = true ∧
    ({ demoRenderer with isFrameStarted := true }.getFrameIndex =
      Except.ok 0) ∧
    ({ demoRenderer with isFrameStarted := true }.getCurrentCommandBuffer =
      Except.ok 0) :=
  ⟨((accessors_require_open_frame demoRenderer).1 rfl).1,
   ((accessors_require_open_frame
      { demoRenderer with isFrameStarted := true }).2 rfl).1,
   (((accessors_require_open_frame
      { demoRenderer with isFrameStarted := true }).2 rfl).2
      (by decide)).trans rfl⟩

/-- C9: a swap chain built by the recreation constructor releases its
reference to the previous instance before the constructor returns, even
though the reference is held throughout `init()`. -/
theorem previous_swap_chain_released (device : DeviceEnv)
    (extent : VkExtent2D) (previous : Option Nat) (sc : LveSwapChain)
    (h : mkLveSwapChainWithPrevious device extent previous = some sc) :
    sc.oldSwapChain = none ∧
    ∀ sc0, LveSwapChain.runInit device extent previous = some sc0 →
      sc0.oldSwapChain = previous := by
  constructor
  · unfold mkLveSwapChainWithPrevious at h
    cases hrun : LveSwapChain.runInit device extent previous with
    | none =>
      rw [hrun] at h
      exact Option.noConfusion h
    | some sc0 =>
      rw [hrun] at h
      simp only [Option.map_some', Option.some.injEq] at h
      rw [← h]
  · intro sc0 hrun
    unfold LveSwapChain.runInit at hrun
    cases hf : chooseSwapSurfaceFormat device.support.formats with
    | none =>
      rw [hf] at hrun
      exact Option.noConfusion hrun
    | some sf =>
      rw [hf] at hrun
      simp only [Option.some.injEq] at hrun
      rw [← hrun]

/-- Witness for C9: recreating over handle 7 yields a chain whose
back-reference is null. -/
theorem previous_swap_chain_released_witness :
    mkLveSwapChainWithPrevious demoDevice ⟨800, 600⟩ (some 7) =
      some demoChain ∧ demoChain.oldSwapChain = none :=
  ⟨by decide,
   (previous_swap_chain_released demoDevice ⟨800, 600⟩ (some 7) demoChain
     (by decide)).1⟩

/-- Bounds of the requested image count, for capabilities whose
maximum (when nonzero) is at least the minimum. -/
theorem requestedImageCount_bounds (caps : VkSurfaceCapabilitiesKHR)
    (hcaps : caps.maxImageCount = 0 ∨
      caps.minImageCount ≤ caps.maxImageCount) :
    caps.minImageCount ≤ requestedImageCount caps ∧
    (caps.maxImageCount ≠ 0 →
      requestedImageCount caps ≤
        max caps.minImageCount caps.maxImageCount) := by
  unfold requestedImageCount
  by_cases hcap : caps.maxImageCount > 0 ∧
      caps.minImageCount + 1 > caps.maxImageCount
  · have hc : (caps.maxImageCount > 0 &&
        decide (caps.minImageCount + 1 > caps.maxImageCount)) = true := by
      simp [hcap.1, hcap.2]
    rw [if_pos hc]
    rcases hcaps with h0 | hle
    · omega
    · exact ⟨hle, fun _ => le_max_right _ _⟩
  · have hc : (caps.maxImageCount > 0 &&
        decide (caps.minImageCount + 1 > caps.maxImageCount)) = false := by
      rcases Decidable.not_and_iff_or_not.mp hcap with h | h
      · simp
        omega
      · simp
        omega
    rw [if_neg (by simp [hc])]
    refine ⟨Nat.le_succ _, fun hne => ?_⟩
    have hmax0 : caps.maxImageCount > 0 := Nat.pos_of_ne_zero hne
    have : ¬ caps.minImageCount + 1 > caps.maxImageCount := fun hgt =>
      hcap ⟨hmax0, hgt⟩
    exact le_trans (Nat.not_lt.mp this) (le_max_right _ _)

/-- C3: for a valid extent, construction yields identical lengths for
the image, view, depth and framebuffer arrays, and (when the driver
honors the request) an image count within
`[minImageCount, max(minImageCount, maxImageCount)]`, the upper bound
applying only when `maxImageCount` is nonzero (zero means unbounded). -/
theorem swap_chain_construction_invariants (device : DeviceEnv)
    (extent : VkExtent2D) (sc : LveSwapChain)
    (_hw : 0 < extent.width) (_hh : 0 < extent.height)
    (hsc : mkLveSwapChain device extent = some sc)
    (hdriver : device.actualImageCount
        (requestedImageCount device.support.capabilities) =
      requestedImageCount device.support.capabilities)
    (hcaps : device.support.capabilities.maxImageCount = 0 ∨
      device.support.capabilities.minImageCount ≤
        device.support.capabilities.maxImageCount) :
    sc.imageCount = sc.swapChainImageViews.length ∧
    sc.imageCount = sc.depthImages.length ∧
    sc.imageCount = sc.swapChainFramebuffers.length ∧
    device.support.capabilities.minImageCount ≤ sc.imageCount ∧
    (device.support.capabilities.maxImageCount ≠ 0 →
      sc.imageCount ≤ max device.support.capabilities.minImageCount
        device.support.capabilities.maxImageCount) := by
  unfold mkLveSwapChain LveSwapChain.runInit at hsc
  cases hf : chooseSwapSurfaceFormat device.support.formats with
  | none =>
    rw [hf] at hsc
    exact Option.noConfusion hsc
  | some sf =>
    rw [hf] at hsc
    simp only [Option.some.injEq] at hsc
    have hb := requestedImageCount_bounds device.support.capabilities hcaps
    rw [← hsc]
    simp only [LveSwapChain.imageCount, List.length_range]
    exact ⟨trivial, trivial, trivial, by rw [hdriver]; exact hb.1,
      fun hne => by rw [hdriver]; exact hb.2 hne⟩

/-- Witness for C3: the demo device yields three images and three of
each per-image resource, within the `[2, max 2 3]` bound. -/
theorem swap_chain_construction_invariants_witness :
    demoChain.imageCount = 3 ∧
    demoChain.swapChainImageViews.length = 3 ∧
    demoChain.depthImages.length = 3 ∧
    demoChain.swapChainFramebuffers.length = 3 ∧
    2 ≤ demoChain.imageCount ∧ demoChain.imageCount ≤ max 2 3 := by
  have h := swap_chain_construction_invariants demoDevice ⟨800, 600⟩
    demoChain (by decide) (by decide) (by decide) (by decide)
    (Or.inr (by decide))
  refine ⟨rfl, rfl, rfl, rfl, h.2.2.2.1, ?_⟩
  exact h.2.2.2.2 (by decide)

/-- C4: with a successful queue submission, `submitCommandBuffers`
performs, in order: the image-in-flight wait (when recorded), the
owner-fence recording, the reset of the current slot fence, the queue
submission waiting on the slot's image-available semaphore at the
color-attachment-output stage and signaling the slot's render-finished
semaphore fenced by the slot fence, and the presentation waiting on the
render-finished semaphore; it advances `currentFrame` modulo
`MAX_FRAMES_IN_FLIGHT` and returns the present status, not the submit
status. -/
theorem submitCommandBuffers_step_order (sc : LveSwapChain)
    (buffer imageIndex : Nat) (presentResult : VkResult) :
    sc.submitCommandBuffers buffer imageIndex VkResult.success
        presentResult =
      Except.ok
        ({ sc with
            imagesInFlight := sc.imagesInFlight.set imageIndex
              (some (sc.inFlightFences.getD sc.currentFrame 0)),
            currentFrame :=
              (sc.currentFrame + 1) % MAX_FRAMES_IN_FLIGHT },
         presentResult,
         (match sc.imagesInFlight.getD imageIndex none with
          | some f => [SubmitEffect.waitImageFence f]
          | none => []) ++
           [SubmitEffect.markImageInFlight imageIndex
              (sc.inFlightFences.getD sc.currentFrame 0),
            SubmitEffect.resetFence
              (sc.inFlightFences.getD sc.currentFrame 0),
            SubmitEffect.queueSubmit
              (sc.imageAvailableSemaphores.getD sc.currentFrame 0)
              VK_PIPELINE_STAGE_COLOR_ATTACHMENT_OUTPUT_BIT buffer
              (sc.renderFinishedSemaphores.getD sc.currentFrame 0)
              (sc.inFlightFences.getD sc.currentFrame 0),
            SubmitEffect.presentKHR
              (sc.renderFinishedSemaphores.getD sc.currentFrame 0)
              imageIndex]) := by
  unfold LveSwapChain.submitCommandBuffers
  simp

/-- Evaluating one completed acquire/submit pair: the image is marked
with the current slot fence, that fence is reset (un-signaled), the
slot advances, and the logged mark records the pre-state. -/
theorem completeFrame_eq (w : SyncWorld) (img : Nat) :
    w.completeFrame img =
      ({ sc := { w.sc with
            imagesInFlight := w.sc.imagesInFlight.set img
              (some (w.sc.inFlightFences.getD w.sc.currentFrame 0)),
            currentFrame :=
              (w.sc.currentFrame + 1) % MAX_FRAMES_IN_FLIGHT },
         signaled := w.signaled.set
           (w.sc.inFlightFences.getD w.sc.currentFrame 0) false },
       { image := img,
         prevFence := w.sc.imagesInFlight.getD img none,
         prevFenceSignaled :=
           match w.sc.imagesInFlight.getD img none with
           | some f => w.signaled.getD f false
           | none => true,
         newFence := w.sc.inFlightFences.getD w.sc.currentFrame 0,
         slot := w.sc.currentFrame }) := by
  unfold SyncWorld.completeFrame LveSwapChain.submitCommandBuffers
  simp

/-- A completed `frameStep` logs a mark whose previously recorded fence
was signaled, taken at the then-current slot, recording that slot's
fence as the new owner; the fence array is unchanged and the slot
advances modulo `MAX_FRAMES_IN_FLIGHT`. -/
theorem frameStep_mark (w : SyncWorld) (img : Nat) (w2 : SyncWorld)
    (m : MarkInfo) (h : w.frameStep img = some (w2, m)) :
    m.prevFenceSignaled = true ∧
    m.slot = w.sc.currentFrame ∧
    m.newFence = w.sc.inFlightFences.getD w.sc.currentFrame 0 ∧
    w2.sc.inFlightFences = w.sc.inFlightFences ∧
    w2.sc.currentFrame = (w.sc.currentFrame + 1) % MAX_FRAMES_IN_FLIGHT := by
  unfold SyncWorld.frameStep at h
  by_cases h1 : w.signaled.getD
      (w.sc.inFlightFences.getD w.sc.currentFrame 0) false = false
  · rw [if_pos h1] at h
    exact Option.noConfusion h
  · rw [if_neg h1] at h
    cases hprev : w.sc.imagesInFlight.getD img none with
    | some f =>
      rw [hprev] at h
      have hb : (if w.signaled.getD f false = false then none
          else some (w.completeFrame img)) = some (w2, m) := h
      by_cases h2 : w.signaled.getD f false = false
      · rw [if_pos h2] at hb
        exact Option.noConfusion hb
      · rw [if_neg h2] at hb
        rw [completeFrame_eq] at hb
        simp only [Option.some.injEq, Prod.mk.injEq] at hb
        have h2t : w.signaled.getD f false = true := by
          revert h2
          cases w.signaled.getD f false <;> simp
        rw [← hb.1, ← hb.2]
        refine ⟨?_, rfl, rfl, rfl, rfl⟩
        show (match w.sc.imagesInFlight.getD img none with
          | some f => w.signaled.getD f false
          | none => true) = true
        rw [hprev]
        exact h2t
    | none =>
      rw [hprev] at h
      have hb : some (w.completeFrame img) = some (w2, m) := h
      rw [completeFrame_eq] at hb
      simp only [Option.some.injEq, Prod.mk.injEq] at hb
      rw [← hb.1, ← hb.2]
      refine ⟨?_, rfl, rfl, rfl, rfl⟩
      show (match w.sc.imagesInFlight.getD img none with
        | some f => w.signaled.getD f false
        | none => true) = true
      rw [hprev]

/-- `getD` on `List.range`. -/
theorem range_getD (n i d : Nat) (h : i < n) :
    (List.range n).getD i d = i := by
  simp [List.getD, List.getElem?_range, h]

/-- Along any schedule starting from a world whose slot fences are the
handles `0, ..., K-1` with the slot index in range, every logged mark
saw its previously recoded fence signaled and recorded the current
slot's own fence. -/
theorem run_marks (events : List SyncEvent) :
    ∀ (w w2 : SyncWorld) (log : List MarkInfo),
      w.sc.inFlightFences = List.range MAX_FRAMES_IN_FLIGHT →
      w.sc.currentFrame < MAX_FRAMES_IN_FLIGHT →
      w.run events = some (w2, log) →
      ∀ m ∈ log, m.prevFenceSignaled = true ∧ m.newFence = m.slot ∧
        m.slot < MAX_FRAMES_IN_FLIGHT := by
  induction events with
  | nil =>
    intro w w2 log _ _ hrun m hm
    unfold SyncWorld.run at hrun
    simp only [Option.some.injEq, Prod.mk.injEq] at hrun
    rw [← hrun.2] at hm
    exact absurd hm (List.not_mem_nil m)
  | cons e es ih =>
    intro w w2 log hfences hslot hrun m hm
    unfold SyncWorld.run at hrun
    cases e with
    | gpuComplete f =>
      simp only [SyncWorld.step] at hrun
      cases hrec : SyncWorld.run
          { w with signaled := w.signaled.set f true } es with
      | none =>
        rw [hrec] at hrun
        exact Option.noConfusion hrun
      | some p =>
        rw [hrec] at hrun
        simp only [Option.some.injEq, Prod.mk.injEq] at hrun
        rcases p with ⟨w2x, rest⟩
        have hlog : log = rest := by
          have := hrun.2
          simpa using this.symm
        rw [hlog] at hm
        exact ih { w with signaled := w.signaled.set f true } w2x rest
          hfences hslot hrec m hm
    | frame img =>
      simp only [SyncWorld.step] at hrun
      cases hstep : w.frameStep img with
      | none =>
        rw [hstep] at hrun
        exact Option.noConfusion hrun
      | some q =>
        rcases q with ⟨w1, m1⟩
        rw [hstep] at hrun
        simp only [Option.map_some', Option.some.injEq] at hrun
        cases hrec : w1.run es with
        | none =>
          rw [hrec] at hrun
          exact Option.noConfusion hrun
        | some p =>
          rcases p with ⟨w2x, rest⟩
          rw [hrec] at hrun
          simp only [Option.some.injEq, Prod.mk.injEq] at hrun
          have hmk := frameStep_mark w img w1 m1 hstep
          have hlog : log = m1 :: rest := by
            have := hrun.2
            simpa using this.symm
          rw [hlog] at hm
          cases hm with
          | head =>
            refine ⟨hmk.1, ?_, ?_⟩
            · rw [hmk.2.2.1, hmk.2.1, hfences]
              exact range_getD MAX_FRAMES_IN_FLIGHT w.sc.currentFrame 0 hslot
            · rw [hmk.2.1]
              exact hslot
          | tail _ hm2 =>
            refine ih w1 w2x rest ?_ ?_ hrec m hm2
            · rw [hmk.2.2.2.1, hfences]
            · rw [hmk.2.2.2.2]
              exact Nat.mod_lt _ (by decide)

/-- C1: in `submitCommandBuffers`, an image whose in-flight map entry
holds an unsignaled fence blocks the call before any submission
(`frameStep` yields no completed step), and along every completed
schedule from a freshly constructed swap chain (e.g. N = 3 images with
K = 2 slots), every time an image is granted to a slot the previously
recorded fence was observed signaled, and the recorded new owner is the
current slot's own fence. -/
theorem image_in_flight_fence_discipline (device : DeviceEnv)
    (extent : VkExtent2D) (sc : LveSwapChain)
    (hsc : mkLveSwapChain device extent = some sc)
    (events : List SyncEvent) (w : SyncWorld) (log : List MarkInfo)
    (hrun : (initialSyncWorld sc).run events = some (w, log)) :
    (∀ m ∈ log, m.prevFenceSignaled = true ∧ m.newFence = m.slot ∧
      m.slot < MAX_FRAMES_IN_FLIGHT) ∧
    (∀ (w1 : SyncWorld) (img f : Nat),
      w1.sc.imagesInFlight.getD img none = some f →
      w1.signaled.getD f false = false →
      w1.frameStep img = none) := by
  constructor
  · have hspec : sc.inFlightFences = List.range MAX_FRAMES_IN_FLIGHT ∧
        sc.currentFrame < MAX_FRAMES_IN_FLIGHT := by
      unfold mkLveSwapChain LveSwapChain.runInit at hsc
      cases hf : chooseSwapSurfaceFormat device.support.formats with
      | none =>
        rw [hf] at hsc
        exact Option.noConfusion hsc
      | some sf =>
        rw [hf] at hsc
        simp only [Option.some.injEq] at hsc
        rw [← hsc]
        exact ⟨rfl, Nat.zero_lt_succ 1⟩
    exact run_marks events (initialSyncWorld sc) w log hspec.1 hspec.2 hrun
  · intro w1 img f hprev hsig
    unfold SyncWorld.frameStep
    by_cases h1 : w1.signaled.getD
        (w1.sc.inFlightFences.getD w1.sc.currentFrame 0) false = false
    · rw [if_pos h1]
    · rw [if_neg h1, hprev]
      show (if w1.signaled.getD f false = false then none
          else some (w1.completeFrame img)) = none
      rw [if_pos hsig]

/-- Witness for C1: a concrete N = 3, K = 2 schedule in which image 0
is reused by slot 1; the run completes, and every logged mark saw a
signaled prior fence and recorded the granting slot's fence. -/
theorem image_in_flight_fence_discipline_witness :
    (initialSyncWorld demoChain).run demoEvents =
      some (demoFinalWorld, demoLog) ∧
    demoLog.all
      (fun m => m.prevFenceSignaled && (m.newFence == m.slot)) = true := by
  constructor
  · decide
  · have h := (image_in_flight_fence_discipline demoDevice ⟨800, 600⟩
      demoChain (by decide) demoEvents demoFinalWorld demoLog
      (by decide)).1
    rw [List.all_eq_true]
    intro m hm
    have hm2 := h m hm
    simp [hm2.1, hm2.2.1]

/-- Probe for the lockstep property across reconstruction: one
begin-frame/end-frame pair in which the present reports
`VK_ERROR_OUT_OF_DATE_KHR`, so `endFrame` recreates the swap chain;
returns the orchestrator frame-slot index paired with the engine's
internal frame index afterwards. -/
def lockstepProbe : Option (Nat × Nat) :=
  match mkLveRenderer demoDevice ⟨800, 600⟩ with
  | none => none
  | some r0 =>
    match r0.beginFrame (normalEnv demoDevice ⟨800, 600⟩ 0) with
    | Except.error _ => none
    | Except.ok (r1, _) =>
      match r1.endFrame { normalEnv demoDevice ⟨800, 600⟩ 0 with
          presentResult := VkResult.errorOutOfDateKHR } with
      | Except.error _ => none
      | Except.ok r2 =>
          some (r2.currentFrameIndex, r2.lveSwapChain.currentFrame)

/-- Counterexample to C2 as stated: after one completed frame whose
present status triggered swap-chain reconstruction, the orchestrator's
slot index is 1 while the freshly constructed engine's internal index
is 0 — the two do not remain equal across reconstruction, because the
new `LveSwapChain` starts at `currentFrame = 0` and
`LveRenderer::currentFrameIndex` is never reset. -/
theorem frame_lockstep_counterexample : lockstepProbe = some (1, 0) := by
  decide

/-- The renderer-state change of a successful `beginFrame`: store the
acquired image index and open the frame. -/
def openFrame (r : LveRenderer) (img : Nat) : LveRenderer :=
  { r with currentImageIndex := img, isFrameStarted := true }

/-- The renderer-state change of an `endFrame` whose submit and present
succeed with no resize: the swap chain marks the presented image with
the current slot fence and advances its internal index, the frame
closes, and the orchestrator slot index advances. -/
def closeFrame (r : LveRenderer) : LveRenderer :=
  { r with
      lveSwapChain := { r.lveSwapChain with
        imagesInFlight := r.lveSwapChain.imagesInFlight.set
          r.currentImageIndex
          (some (r.lveSwapChain.inFlightFences.getD
            r.lveSwapChain.currentFrame 0)),
        currentFrame := (r.lveSwapChain.currentFrame + 1) %
          MAX_FRAMES_IN_FLIGHT },
      isFrameStarted := false,
      currentFrameIndex := (r.currentFrameIndex + 1) %
        MAX_FRAMES_IN_FLIGHT }

/-- `beginFrame` on a closed frame with a successful acquire opens the
frame, stores the acquired image index, and returns the current slot
command buffer. -/
theorem beginFrame_normal (device : DeviceEnv) (extent : VkExtent2D)
    (img : Nat) (r : LveRenderer) (hclosed : r.isFrameStarted = false) :
    r.beginFrame (normalEnv device extent img) =
      Except.ok (openFrame r img,
        some (r.commandBuffers.getD r.currentFrameIndex 0)) := by
  simp [LveRenderer.beginFrame, normalEnv, openFrame,
    LveRenderer.getCurrentCommandBuffer, hclosed]

/-- `endFrame` on an open frame with successful submit and present and
no pending resize produces exactly the `closeFrame` state change. -/
theorem endFrame_normal (device : DeviceEnv) (extent : VkExtent2D)
    (img : Nat) (r : LveRenderer) (hopen : r.isFrameStarted = true) :
    r.endFrame (normalEnv device extent img) =
      Except.ok (closeFrame r) := by
  simp [LveRenderer.endFrame, normalEnv, closeFrame,
    LveRenderer.getCurrentCommandBuffer, LveSwapChain.submitCommandBuffers,
    Except.map, hopen]

/-- Over any sequence of completed all-success frames from a closed
state with in-range indices, both frame indices advance by the frame
count modulo `MAX_FRAMES_IN_FLIGHT` and the frame ends closed. -/
theorem runFrames_normal_indices (device : DeviceEnv)
    (extent : VkExtent2D) (imgs : List Nat) :
    ∀ (r rOut : LveRenderer),
      r.isFrameStarted = false →
      r.currentFrameIndex < MAX_FRAMES_IN_FLIGHT →
      r.lveSwapChain.currentFrame < MAX_FRAMES_IN_FLIGHT →
      runFrames device extent r imgs = Except.ok rOut →
      rOut.currentFrameIndex =
        (r.currentFrameIndex + imgs.length) % MAX_FRAMES_IN_FLIGHT ∧
      rOut.lveSwapChain.currentFrame =
        (r.lveSwapChain.currentFrame + imgs.length) %
          MAX_FRAMES_IN_FLIGHT ∧
      rOut.isFrameStarted = false := by
  induction imgs with
  | nil =>
    intro r rOut hclosed hc1 hc2 hrun
    unfold runFrames at hrun
    simp only [Except.ok.injEq] at hrun
    rw [← hrun]
    refine ⟨?_, ?_, hclosed⟩
    · simp only [List.length_nil, MAX_FRAMES_IN_FLIGHT] at *
      omega
    · simp only [List.length_nil, MAX_FRAMES_IN_FLIGHT] at *
      omega
  | cons img imgs ih =>
    intro r rOut hclosed hc1 hc2 hrun
    unfold runFrames at hrun
    rw [beginFrame_normal device extent img r hclosed] at hrun
    have hrun2 : (match (openFrame r img).endFrame
        (normalEnv device extent img) with
      | Except.error e => Except.error e
      | Except.ok r2 => runFrames device extent r2 imgs) =
        Except.ok rOut := hrun
    rw [endFrame_normal device extent img (openFrame r img) rfl] at hrun2
    have hrun3 : runFrames device extent (closeFrame (openFrame r img))
        imgs = Except.ok rOut := hrun2
    have hres := ih (closeFrame (openFrame r img)) rOut rfl
      (Nat.mod_lt _ (by decide)) (Nat.mod_lt _ (by decide)) hrun3
    have e1 : rOut.currentFrameIndex =
        ((r.currentFrameIndex + 1) % MAX_FRAMES_IN_FLIGHT + imgs.length) %
          MAX_FRAMES_IN_FLIGHT := hres.1
    have e2 : rOut.lveSwapChain.currentFrame =
        ((r.lveSwapChain.currentFrame + 1) % MAX_FRAMES_IN_FLIGHT +
          imgs.length) % MAX_FRAMES_IN_FLIGHT := hres.2.1
    refine ⟨?_, ?_, hres.2.2⟩
    · simp only [List.length_cons, MAX_FRAMES_IN_FLIGHT] at e1 ⊢
      omega
    · simp only [List.length_cons, MAX_FRAMES_IN_FLIGHT] at e2 ⊢
      omega

/-- C2 (amended): over any sequence of completed frames in which no
swap-chain reconstruction occurs (all acquire/submit/present calls
succeed, no resize), the orchestrator frame-slot index and the swap
chain engine internal frame index each advance by exactly one modulo
`MAX_FRAMES_IN_FLIGHT = 2` per completed frame — both equal the frame
count mod 2, cycling strictly 0, 1, 0, 1, ... in lockstep regardless of
the acquired image indices.  (Across a reconstruction the engine index
restarts at 0 while the orchestrator index does not, so the two may
differ; see the counterexample.) -/
theorem frame_indices_lockstep_without_recreation (device : DeviceEnv)
    (extent : VkExtent2D) (imgs : List Nat) (r0 r : LveRenderer)
    (h0 : mkLveRenderer device extent = some r0)
    (hrun : runFrames device extent r0 imgs = Except.ok r) :
    r.currentFrameIndex = imgs.length % MAX_FRAMES_IN_FLIGHT ∧
    r.lveSwapChain.currentFrame = imgs.length % MAX_FRAMES_IN_FLIGHT ∧
    r.isFrameStarted = false := by
  have h0f : r0.isFrameStarted = false ∧ r0.currentFrameIndex = 0 ∧
      r0.lveSwapChain.currentFrame = 0 := by
    unfold mkLveRenderer at h0
    cases hsc : mkLveSwapChain device extent with
    | none =>
      rw [hsc] at h0
      exact Option.noConfusion h0
    | some sc =>
      have hcf : sc.currentFrame = 0 := by
        unfold mkLveSwapChain LveSwapChain.runInit at hsc
        cases hf : chooseSwapSurfaceFormat device.support.formats with
        | none =>
          rw [hf] at hsc
          exact Option.noConfusion hsc
        | some sf =>
          rw [hf] at hsc
          simp only [Option.some.injEq] at hsc
          rw [← hsc]
      rw [hsc] at h0
      simp only [Option.map_some', Option.some.injEq] at h0
      rw [← h0]
      exact ⟨rfl, rfl, hcf⟩
  have h := runFrames_normal_indices device extent imgs r0 r h0f.1
    (by rw [h0f.2.1]; decide) (by rw [h0f.2.2]; decide) hrun
  refine ⟨?_, ?_, h.2.2⟩
  · rw [h.1, h0f.2.1, Nat.zero_add]
  · rw [h.2.1, h0f.2.2, Nat.zero_add]

/-- Witness for the amended C2: three completed all-success frames on
images 0, 1, 2 leave both indices equal to 3 mod 2 = 1. -/
theorem frame_indices_lockstep_without_recreation_witness :
    runFrames demoDevice ⟨800, 600⟩ demoRenderer [0, 1, 2] =
      Except.ok demoRenderer3 ∧
    demoRenderer3.currentFrameIndex = 1 ∧
    demoRenderer3.lveSwapChain.currentFrame = 1 := by
  have hrun : runFrames demoDevice ⟨800, 600⟩ demoRenderer [0, 1, 2] =
      Except.ok demoRenderer3 := by rfl
  refine ⟨hrun, ?_, ?_⟩
  · exact (frame_indices_lockstep_without_recreation demoDevice ⟨800, 600⟩
      [0, 1, 2] demoRenderer demoRenderer3 (by decide) hrun).1
  · exact (frame_indices_lockstep_without_recreation demoDevice ⟨800, 600⟩
      [0, 1, 2] demoRenderer demoRenderer3 (by decide) hrun).2.1
